import Mathlib

/-!
Verification development for the SiliconFlow LLM provider
(`src/apps/agent-tars/src/main/llmProvider/providers/SiliconFlowProvider.ts`).

The provider extends an OpenAI-compatible base. Each of its three operations
(`askLLMText`, `askTool`, `askLLMTextStream`) registers an `AbortController`
under the caller's request id in `this.activeRequests` (a JS `Map`), runs a
(currently placeholder) backend call, checks the controller's abort signal,
and cleans the registry entry up on every exit path; errors classified as
aborts yield the operation's neutral result, other errors are re-thrown
wrapped with a backend-identifying message.

The backend invocation itself is a placeholder (commented-out TODO) in the
source, so it is modelled as an oracle parameter: either it completes
silently or it throws a given error. The abort signal observed at the
post-call checkpoint is likewise an oracle boolean, standing for whether a
cancel arrived before the checkpoint ran.
-/

set_option autoImplicit false

namespace SiliconFlow

/-- Modelled from the spec: the `Message` record comes from the
`@agent-infra/shared` package, which is not under src/; the spec's data model
gives it a `role` and a `content` field. -/
structure Message where
  role : String
  content : String
deriving Repr, DecidableEq

/-- The shape `formatMessages` produces: a plain `\x7brole, content\x7d` pair
(the object literal built at lines 35-38 of the source). -/
structure FormattedMessage where
  role : String
  content : String
deriving Repr, DecidableEq

/-- `formatMessages` from the source (lines 34-39): maps every message to a
`\x7brole, content\x7d` object. -/
def formatMessages (messages : List Message) : List FormattedMessage :=
  messages.map (fun msg => { role := msg.role, content := msg.content })

/-- Modelled from the spec: `ToolCall` (from the shared package, not under
src/) is `\x7bid, tool name, arguments\x7d`. -/
structure ToolCall where
  id : String
  name : String
  arguments : String
deriving Repr, DecidableEq

/-- Modelled from the spec: a `ToolDefinition` (`ChatCompletionTool`) is an
opaque-to-the-core description passed through per request; the provider never
inspects it, so it is kept abstract as its serialized form. -/
abbrev ToolDefinition := String

/-- Modelled from the spec: `ToolChoice` is `enum\x7bauto, none, forced(tool
name)\x7d` (the `LLMProvider` interface file is not under src/). -/
inductive ToolChoice where
  | auto
  | none
  | forced (name : String)
deriving Repr, DecidableEq

/-- `LLMResponse` as used by the source: the success path of `askTool`
(line 117) builds `\x7bcontent, tool_calls\x7d` while its cancellation path
(line 125) builds `\x7bcontent\x7d` only, so `tool_calls` is an optional
field. -/
structure LLMResponse where
  content : String
  tool_calls : Option (List ToolCall) := Option.none
deriving Repr, DecidableEq

/-- A JavaScript thrown value: either an `Error` instance (with `name` and
`message`) or some other value, kept as its string form. The source branches
on `error instanceof Error`. -/
inductive Thrown where
  | error (name : String) (message : String)
  | other (value : String)
deriving Repr, DecidableEq

/-- JS template-literal stringification of a thrown value, as in
`` `... : $\x7berror\x7d` ``: `String(e)` is `name + ": " + message` for an
`Error`, and the value's own string form otherwise. -/
def thrownToString : Thrown → String
  | .error n m => n ++ ": " ++ m
  | .other v => v

/-- `errorMessage` extraction in `askTool` (lines 120-121):
`error instanceof Error ? error.message : String(error)`. -/
def thrownMessage : Thrown → String
  | .error _ m => m
  | .other v => v

/-- `errorName` extraction in `askTool` (line 122):
`error instanceof Error ? error.name : 'Unknown'`. -/
def thrownName : Thrown → String
  | .error n _ => n
  | .other _ => "Unknown"

/-- `sub.isPrefixOf` starting at some position of `s`: the embedding of
JavaScript `String.prototype.includes`. -/
def containsSub : List Char → List Char → Bool
  | [], sub => sub.isEmpty
  | c :: rest, sub => List.isPrefixOf sub (c :: rest) || containsSub rest sub

/-- `s.includes(sub)` on strings. -/
def strIncludes (s sub : String) : Bool :=
  containsSub s.data sub.data

/-- The abort classification used by `askLLMText` (lines 72-75) and
`askLLMTextStream` (lines 168-171): `error instanceof Error &&
(error.name === 'AbortError' || error.message.includes('aborted'))`. -/
def isAbortInstanceCheck (e : Thrown) : Bool :=
  match e with
  | .error n m => n == "AbortError" || strIncludes m "aborted"
  | .other _ => false

/-- The abort classification used by `askTool` (line 124):
`errorName === 'AbortError' || errorMessage.includes('aborted')`, where the
name and message are extracted with fallbacks for non-`Error` values. -/
def isAbortNameMessage (e : Thrown) : Bool :=
  thrownName e == "AbortError" || strIncludes (thrownMessage e) "aborted"

/-- The `activeRequests` registry: a JS `Map` from request id to the
registered `AbortController`, represented as an association list mapping the
id to the controller's serial number. -/
abbrev Registry := List (String × Nat)

/-- `Map.prototype.set`: replace the value stored under an existing key,
otherwise append a new entry. -/
def mapSet (m : Registry) (k : String) (v : Nat) : Registry :=
  match m with
  | [] => [(k, v)]
  | (k0, v0) :: rest =>
    if k0 == k then (k, v) :: rest else (k0, v0) :: mapSet rest k v

/-- `Map.prototype.delete`: afterwards the key is absent. -/
def mapDelete (m : Registry) (k : String) : Registry :=
  m.filter (fun p => !(p.1 == k))

/-- `Map.prototype.has`. -/
def mapHas (m : Registry) (k : String) : Bool :=
  m.any (fun p => p.1 == k)

/-- `Map.prototype.get` as first-match association-list lookup. -/
def lookupReg (m : Registry) (k : String) : Option Nat :=
  match m with
  | [] => Option.none
  | (k0, v) :: rest => if k0 == k then some v else lookupReg rest k

/-- Per-instance provider state: the `activeRequests` map plus a serial
counter handing out fresh `AbortController` identities. -/
structure ProviderState where
  activeRequests : Registry
  nextController : Nat

/-- Modelled from the spec: `cleanupRequest` is inherited from
`BaseProvider`, which is not under src/; the spec's `release(id)` "removes
the entry unconditionally; idempotent". -/
def cleanupRequest (st : ProviderState) (requestId : String) : ProviderState :=
  { st with activeRequests := mapDelete st.activeRequests requestId }

/-- The `try` block of `askLLMText` (lines 51-69): format (pure), create and
register a fresh controller, run the placeholder backend call (the oracle
`backendThrow`), check `controller.signal.aborted` (the oracle `aborted`),
then clean up and return `''`. -/
def askLLMTextBody (st : ProviderState) (requestId : String)
    (aborted : Bool) (backendThrow : Option Thrown) :
    Except Thrown String × ProviderState :=
  let controller := st.nextController
  let st1 : ProviderState :=
    { activeRequests := mapSet st.activeRequests requestId controller
      nextController := st.nextController + 1 }
  match backendThrow with
  | some e => (.error e, st1)
  | Option.none =>
    if aborted then
      (.error (Thrown.error "Error" "Request aborted"), st1)
    else
      (.ok "", cleanupRequest st1 requestId)

/-- The `catch` block of `askLLMText` (lines 70-79): clean up, return `''`
for aborts, otherwise re-throw wrapped. -/
def askLLMTextCatch (st : ProviderState) (requestId : String) (e : Thrown) :
    Except Thrown String × ProviderState :=
  ((if isAbortInstanceCheck e then .ok ""
    else .error (Thrown.error "Error"
      ("Failed to get response from SiliconFlow: " ++ thrownToString e))),
   cleanupRequest st requestId)

/-- `askLLMText` (lines 44-80): the `try` body with its `catch` handler. -/
def askLLMText (st : ProviderState) (requestId : String)
    (aborted : Bool) (backendThrow : Option Thrown) :
    Except Thrown String × ProviderState :=
  match askLLMTextBody st requestId aborted backendThrow with
  | (.ok v, st1) => (.ok v, st1)
  | (.error e, st1) => askLLMTextCatch st1 requestId e

/-- The `try` block of `askTool` (lines 96-117): same shape as `askLLMText`,
returning `\x7bcontent: '', tool_calls: []\x7d` on success. The `tools` and
`toolChoice` arguments are accepted but only used by the commented-out
backend call. -/
def askToolBody (st : ProviderState) (tools : List ToolDefinition)
    (toolChoice : ToolChoice) (requestId : String)
    (aborted : Bool) (backendThrow : Option Thrown) :
    Except Thrown LLMResponse × ProviderState :=
  let controller := st.nextController
  let st1 : ProviderState :=
    { activeRequests := mapSet st.activeRequests requestId controller
      nextController := st.nextController + 1 }
  match backendThrow with
  | some e => (.error e, st1)
  | Option.none =>
    if aborted then
      (.error (Thrown.error "Error" "Request aborted"), st1)
    else
      (.ok { content := "", tool_calls := some [] }, cleanupRequest st1 requestId)

/-- The `catch` block of `askTool` (lines 118-130): clean up, return
`\x7bcontent: ''\x7d` (no `tool_calls` field) for aborts, otherwise re-throw
wrapped with the extracted message. -/
def askToolCatch (st : ProviderState) (requestId : String) (e : Thrown) :
    Except Thrown LLMResponse × ProviderState :=
  ((if isAbortNameMessage e then .ok { content := "", tool_calls := Option.none }
    else .error (Thrown.error "Error"
      ("Failed to get tool response from SiliconFlow: " ++ thrownMessage e))),
   cleanupRequest st requestId)

/-- `askTool` (lines 85-131): the `try` body with its `catch` handler. -/
def askTool (st : ProviderState) (tools : List ToolDefinition)
    (toolChoice : ToolChoice) (requestId : String)
    (aborted : Bool) (backendThrow : Option Thrown) :
    Except Thrown LLMResponse × ProviderState :=
  match askToolBody st tools toolChoice requestId aborted backendThrow with
  | (.ok v, st1) => (.ok v, st1)
  | (.error e, st1) => askToolCatch st1 requestId e

/-- The observable outcome of consuming the `askLLMTextStream` generator to
its end: the text chunks it yielded, and the wrapped error it re-threw (or
`none` when it finished normally, including the swallowed-abort case). -/
structure StreamOutcome where
  chunks : List String
  failure : Option Thrown
deriving Repr, DecidableEq

/-- The `catch` block of `askLLMTextStream` (lines 166-177): clean up, end
the generator normally for aborts, otherwise re-throw wrapped. -/
def askLLMTextStreamCatch (st : ProviderState) (requestId : String)
    (e : Thrown) : StreamOutcome × ProviderState :=
  ((if isAbortInstanceCheck e then { chunks := [], failure := Option.none }
    else { chunks := [],
           failure := some (Thrown.error "Error"
             ("Failed to get stream response from SiliconFlow: " ++ thrownToString e)) }),
   cleanupRequest st requestId)

/-- `askLLMTextStream` (lines 136-178): the generator body registers the
controller, runs the placeholder backend call, and cleans up; the stub
contains no `yield` and no abort checkpoint (both sit inside the
commented-out streaming loop), so the `aborted` oracle is accepted but
unread and the yielded sequence is always empty. -/
def askLLMTextStream (st : ProviderState) (requestId : String)
    (aborted : Bool) (backendThrow : Option Thrown) :
    StreamOutcome × ProviderState :=
  let controller := st.nextController
  let st1 : ProviderState :=
    { activeRequests := mapSet st.activeRequests requestId controller
      nextController := st.nextController + 1 }
  match backendThrow with
  | some e => askLLMTextStreamCatch st1 requestId e
  | Option.none => ({ chunks := [], failure := Option.none }, cleanupRequest st1 requestId)

/-- `LLMConfig` as far as the constructor reads it (the full interface file
is not under src/): optional `baseURL` and `model`. `Option.none` stands for
an absent (`undefined`) field. -/
structure LLMConfig where
  baseURL : Option String := Option.none
  model : Option String := Option.none
deriving Repr, DecidableEq

/-- The process environment as read by the constructor: the two variables
`SILICONFLOW_API_BASE_URL` and `SILICONFLOW_DEFAULT_MODEL`; `Option.none`
stands for an unset variable. -/
structure Env where
  SILICONFLOW_API_BASE_URL : Option String := Option.none
  SILICONFLOW_DEFAULT_MODEL : Option String := Option.none
deriving Repr, DecidableEq

/-- JavaScript `a || b` for an optional string `a`: an absent value and the
empty string are both falsy. -/
def jsOr (a : Option String) (b : String) : String :=
  match a with
  | some s => if s == "" then b else s
  | Option.none => b

/-- The configuration the provider ends up with after construction. -/
structure ResolvedConfig where
  baseURL : String
  model : String
deriving Repr, DecidableEq

/-- The `SiliconFlowProvider` constructor (lines 15-29): resolves `baseURL`
and `model` as `config field || environment variable || hardcoded literal`
before delegating to `OpenAIProvider`. -/
def siliconFlowConstructor (config : LLMConfig) (env : Env) : ResolvedConfig :=
  { baseURL := jsOr config.baseURL
      (jsOr env.SILICONFLOW_API_BASE_URL "https://api.siliconflow.com/v1")
    model := jsOr config.model
      (jsOr env.SILICONFLOW_DEFAULT_MODEL "siliconflow-default") }

/-! Helper lemmas shared by the claim theorems. -/

/-- Deleting a key from the registry makes `mapHas` false for it. -/
theorem mapHas_mapDelete (m : Registry) (k : String) :
    mapHas (mapDelete m k) k = false := by
  induction m with
  | nil => rfl
  | cons p rest ih =>
    cases h : (p.1 == k) <;>
      simp [mapDelete, mapHas, List.filter, h] at ih ⊢

/-- After `cleanupRequest`, the request id is no longer registered. -/
theorem mapHas_cleanupRequest (st : ProviderState) (r : String) :
    mapHas (cleanupRequest st r).activeRequests r = false :=
  mapHas_mapDelete st.activeRequests r

/-- `Map.set` stores the given value under the given key. -/
theorem lookupReg_mapSet (m : Registry) (k : String) (v : Nat) :
    lookupReg (mapSet m k v) k = some v := by
  induction m with
  | nil => simp [mapSet, lookupReg]
  | cons p rest ih =>
    cases h : (p.1 == k) <;> simp [mapSet, lookupReg, h, ih]

/-- A prefix of `l` is still a prefix of `l ++ t`. -/
theorem isPrefixOf_append_right (sub l t : List Char)
    (h : List.isPrefixOf sub l = true) :
    List.isPrefixOf sub (l ++ t) = true := by
  induction sub generalizing l with
  | nil => simp [List.isPrefixOf]
  | cons a as ih =>
    cases l with
    | nil => simp [List.isPrefixOf] at h
    | cons b bs =>
      simp only [List.isPrefixOf, List.cons_append, Bool.and_eq_true] at h ⊢
      exact ⟨h.1, ih bs h.2⟩

/-- A substring occurrence survives appending on the right. -/
theorem containsSub_append_left (s t sub : List Char)
    (h : containsSub s sub = true) : containsSub (s ++ t) sub = true := by
  induction s with
  | nil =>
    have hsub : sub = [] := by
      cases sub with
      | nil => rfl
      | cons a as => simp [containsSub] at h
    subst hsub
    cases t with
    | nil => rfl
    | cons c cs => simp [containsSub, List.isPrefixOf]
  | cons c cs ih =>
    simp only [containsSub, List.cons_append, Bool.or_eq_true] at h ⊢
    cases h with
    | inl hp => exact Or.inl (isPrefixOf_append_right sub (c :: cs) t hp)
    | inr hc => exact Or.inr (ih hc)

/-- `(s ++ t).includes(sub)` holds whenever `s.includes(sub)` does. -/
theorem strIncludes_append_left (s t sub : String)
    (h : strIncludes s sub = true) : strIncludes (s ++ t) sub = true := by
  have hd : (s ++ t).data = s.data ++ t.data := String.data_append s t
  unfold strIncludes at h ⊢
  rw [hd]
  exact containsSub_append_left s.data t.data sub.data h

/-- The synthetic `'Request aborted'` error passes the `instanceof`-style
abort check. -/
theorem isAbortInstanceCheck_requestAborted :
    isAbortInstanceCheck (Thrown.error "Error" "Request aborted") = true := by
  decide

/-- The synthetic `'Request aborted'` error passes `askTool`'s
name/message abort check. -/
theorem isAbortNameMessage_requestAborted :
    isAbortNameMessage (Thrown.error "Error" "Request aborted") = true := by
  decide

/-! Claim theorems. -/

/-- Claim C1: for every request id `r` and each of the three operations
invoked with `r`, once the operation terminates — success, cancellation
(the abort checkpoint firing or an abort-classified error), or a backend
error (the wrapped re-throw) — the provider's `activeRequests` registry no
longer contains `r`. The stream stub has no yield points, so a consumer
stopping after any prefix of the (empty) sequence has consumed the whole
run. -/
theorem c1_registry_released_on_all_paths (st : ProviderState) (r : String)
    (aborted : Bool) (bt : Option Thrown)
    (tools : List ToolDefinition) (tc : ToolChoice) :
    mapHas (askLLMText st r aborted bt).2.activeRequests r = false ∧
    mapHas (askTool st tools tc r aborted bt).2.activeRequests r = false ∧
    mapHas (askLLMTextStream st r aborted bt).2.activeRequests r = false := by
  refine ⟨?_, ?_, ?_⟩ <;>
    cases bt <;> cases aborted <;>
      simp [askLLMText, askLLMTextBody, askLLMTextCatch,
        askTool, askToolBody, askToolCatch,
        askLLMTextStream, askLLMTextStreamCatch,
        mapHas_cleanupRequest]

/-- Claim C2 counterexample: with `"r"` already registered (handle 0), a
second `askLLMText` with the same id does not fail with any
duplicate-request error — it completes normally — and the registration step
(`Map.set`) silently replaces the stored handle with the fresh one. -/
theorem c2_counterexample_duplicate_register_succeeds :
    (askLLMText ⟨[("r", 0)], 1⟩ "r" false Option.none).1 = .ok "" ∧
    mapSet [("r", 0)] "r" 1 = [("r", 1)] := by
  exact ⟨rfl, by decide⟩

/-- Claim C2 amended: registering a request id that is already present does
not fail; `activeRequests.set` overwrites the stored cancellation handle
with the new one and the operation proceeds normally (no `DuplicateRequest`
error exists anywhere in the code). -/
theorem c2_amended_duplicate_register_overwrites (st : ProviderState)
    (r : String) (h : mapHas st.activeRequests r = true) :
    (askLLMText st r false Option.none).1 = .ok "" ∧
    (askTool st [] ToolChoice.auto r false Option.none).1 =
      .ok { content := "", tool_calls := some [] } ∧
    lookupReg (mapSet st.activeRequests r st.nextController) r =
      some st.nextController := by
  refine ⟨?_, ?_, lookupReg_mapSet st.activeRequests r st.nextController⟩ <;>
    simp [askLLMText, askLLMTextBody, askTool, askToolBody]

/-- Witness for the amended C2 at a concrete state with `"r"` registered. -/
theorem c2_amended_witness :
    mapHas (⟨[("r", 0)], 1⟩ : ProviderState).activeRequests "r" = true ∧
    ((askLLMText ⟨[("r", 0)], 1⟩ "r" false Option.none).1 = .ok "" ∧
     (askTool ⟨[("r", 0)], 1⟩ [] ToolChoice.auto "r" false Option.none).1 =
       .ok { content := "", tool_calls := some [] } ∧
     lookupReg (mapSet (⟨[("r", 0)], 1⟩ : ProviderState).activeRequests "r"
         (⟨[("r", 0)], 1⟩ : ProviderState).nextController) "r" =
       some (⟨[("r", 0)], 1⟩ : ProviderState).nextController) :=
  ⟨by decide, c2_amended_duplicate_register_overwrites ⟨[("r", 0)], 1⟩ "r" (by decide)⟩

/-- Claim C3: whenever the exception surfacing from a run of `askLLMText`,
`askTool`, or `askLLMTextStream` is classified as an abort by that
operation's check (which fires exactly when the name is `AbortError` or the
message contains `aborted`, so it takes priority over any backend-failure
classification of the same exception), the operation returns its neutral
empty result normally instead of throwing a wrapped backend failure. -/
theorem c3_abort_errors_return_neutral (st₁ st₂ st₃ : ProviderState)
    (r : String) (tools : List ToolDefinition) (tc : ToolChoice)
    (ab₁ ab₂ ab₃ : Bool) (e₁ e₂ e₃ : Thrown)
    (h₁ : isAbortInstanceCheck e₁ = true)
    (h₂ : isAbortNameMessage e₂ = true)
    (h₃ : isAbortInstanceCheck e₃ = true) :
    (askLLMText st₁ r ab₁ (some e₁)).1 = .ok "" ∧
    (askTool st₂ tools tc r ab₂ (some e₂)).1 =
      .ok { content := "", tool_calls := Option.none } ∧
    (askLLMTextStream st₃ r ab₃ (some e₃)).1 =
      { chunks := [], failure := Option.none } := by
  refine ⟨?_, ?_, ?_⟩ <;>
    simp [askLLMText, askLLMTextBody, askLLMTextCatch,
      askTool, askToolBody, askToolCatch,
      askLLMTextStream, askLLMTextStreamCatch, h₁, h₂, h₃]

/-- Witness for C3 at a concrete `AbortError` thrown during each backend
call. -/
theorem c3_witness :
    (isAbortInstanceCheck (Thrown.error "AbortError" "boom") = true ∧
     isAbortNameMessage (Thrown.error "AbortError" "boom") = true) ∧
    ((askLLMText ⟨[], 0⟩ "r" false (some (Thrown.error "AbortError" "boom"))).1 = .ok "" ∧
     (askTool ⟨[], 0⟩ [] ToolChoice.auto "r" false
         (some (Thrown.error "AbortError" "boom"))).1 =
       .ok { content := "", tool_calls := Option.none } ∧
     (askLLMTextStream ⟨[], 0⟩ "r" false (some (Thrown.error "AbortError" "boom"))).1 =
       { chunks := [], failure := Option.none }) :=
  ⟨⟨by decide, by decide⟩,
   c3_abort_errors_return_neutral ⟨[], 0⟩ ⟨[], 0⟩ ⟨[], 0⟩ "r" [] ToolChoice.auto
     false false false
     (Thrown.error "AbortError" "boom") (Thrown.error "AbortError" "boom")
     (Thrown.error "AbortError" "boom") (by decide) (by decide) (by decide)⟩

/-- Claim C4: when the request's abort signal is already set at the
operation's checkpoint (the signal having been raised before any real
backend call would be issued) and the placeholder backend call itself did
not throw, every operation terminates with its neutral result —
`askLLMText` returns the empty string, `askTool` the empty response,
`askLLMTextStream` the empty chunk sequence — and none of them surfaces a
backend failure. (The stream stub reaches the empty sequence without
reading the signal: its checkpoint sits inside the commented-out streaming
loop.) -/
theorem c4_precall_cancellation_neutral_result
    (st₁ st₂ st₃ : ProviderState) (r : String)
    (tools : List ToolDefinition) (tc : ToolChoice) :
    (askLLMText st₁ r true Option.none).1 = .ok "" ∧
    (askTool st₂ tools tc r true Option.none).1 =
      .ok { content := "", tool_calls := Option.none } ∧
    (askLLMTextStream st₃ r true Option.none).1 =
      { chunks := [], failure := Option.none } := by
  refine ⟨?_, ?_, ?_⟩ <;>
    simp [askLLMText, askLLMTextBody, askLLMTextCatch,
      askTool, askToolBody, askToolCatch,
      askLLMTextStream, askLLMTextStreamCatch,
      isAbortInstanceCheck_requestAborted, isAbortNameMessage_requestAborted]

/-- Claim C5: the constructor resolves `baseURL` and `model` with the fixed
precedence explicit (non-empty) config field, then the
`SILICONFLOW_API_BASE_URL` / `SILICONFLOW_DEFAULT_MODEL` environment
variables, then the hardcoded literals; in particular, with no explicit
config and `SILICONFLOW_DEFAULT_MODEL=test-model` the effective model is
`test-model`. -/
theorem c5_config_precedence (u m : String) (envU envM : Option String)
    (hu : (u == "") = false) (hm : (m == "") = false) :
    (siliconFlowConstructor { baseURL := some u, model := some m }
        ⟨envU, envM⟩).baseURL = u ∧
    (siliconFlowConstructor { baseURL := some u, model := some m }
        ⟨envU, envM⟩).model = m ∧
    (siliconFlowConstructor {} ⟨some u, some m⟩).baseURL = u ∧
    (siliconFlowConstructor {} ⟨some u, some m⟩).model = m ∧
    (siliconFlowConstructor {} ⟨Option.none, Option.none⟩) =
      { baseURL := "https://api.siliconflow.com/v1", model := "siliconflow-default" } ∧
    (siliconFlowConstructor {} ⟨Option.none, some "test-model"⟩).model =
      "test-model" := by
  refine ⟨?_, ?_, ?_, ?_, ?_, ?_⟩ <;>
    simp [siliconFlowConstructor, jsOr, hu, hm]

/-- Witness for C5 at concrete non-empty override strings. -/
theorem c5_witness :
    (("https://example.test/v2" == "") = false ∧ ("test-model" == "") = false) ∧
    ((siliconFlowConstructor
        { baseURL := some "https://example.test/v2", model := some "test-model" }
        ⟨some "https://env.test", some "env-model"⟩).baseURL = "https://example.test/v2" ∧
     (siliconFlowConstructor
        { baseURL := some "https://example.test/v2", model := some "test-model" }
        ⟨some "https://env.test", some "env-model"⟩).model = "test-model" ∧
     (siliconFlowConstructor {}
        ⟨some "https://example.test/v2", some "test-model"⟩).baseURL =
       "https://example.test/v2" ∧
     (siliconFlowConstructor {}
        ⟨some "https://example.test/v2", some "test-model"⟩).model = "test-model" ∧
     (siliconFlowConstructor {} ⟨Option.none, Option.none⟩) =
       { baseURL := "https://api.siliconflow.com/v1", model := "siliconflow-default" } ∧
     (siliconFlowConstructor {} ⟨Option.none, some "test-model"⟩).model =
       "test-model") :=
  ⟨⟨by decide, by decide⟩,
   c5_config_precedence "https://example.test/v2" "test-model"
     (some "https://env.test") (some "env-model") (by decide) (by decide)⟩

/-- Claim C6: an error not classified as an abort is re-raised by each
operation wrapped in an `Error` whose message names the backend
(`SiliconFlow`) and the failing operation (`response`, `tool response`, or
`stream response` respectively); it is never swallowed. -/
theorem c6_nonabort_errors_rethrown_wrapped (st₁ st₂ st₃ : ProviderState)
    (r : String) (tools : List ToolDefinition) (tc : ToolChoice)
    (ab₁ ab₂ ab₃ : Bool) (e₁ e₂ e₃ : Thrown)
    (h₁ : isAbortInstanceCheck e₁ = false)
    (h₂ : isAbortNameMessage e₂ = false)
    (h₃ : isAbortInstanceCheck e₃ = false) :
    ((askLLMText st₁ r ab₁ (some e₁)).1 =
      .error (Thrown.error "Error"
        ("Failed to get response from SiliconFlow: " ++ thrownToString e₁)) ∧
     strIncludes ("Failed to get response from SiliconFlow: " ++ thrownToString e₁)
       "SiliconFlow" = true) ∧
    ((askTool st₂ tools tc r ab₂ (some e₂)).1 =
      .error (Thrown.error "Error"
        ("Failed to get tool response from SiliconFlow: " ++ thrownMessage e₂)) ∧
     strIncludes ("Failed to get tool response from SiliconFlow: " ++ thrownMessage e₂)
       "SiliconFlow" = true) ∧
    ((askLLMTextStream st₃ r ab₃ (some e₃)).1 =
      { chunks := [],
        failure := some (Thrown.error "Error"
          ("Failed to get stream response from SiliconFlow: " ++ thrownToString e₃)) } ∧
     strIncludes ("Failed to get stream response from SiliconFlow: " ++ thrownToString e₃)
       "SiliconFlow" = true) := by
  refine ⟨⟨?_, ?_⟩, ⟨?_, ?_⟩, ⟨?_, ?_⟩⟩
  · simp [askLLMText, askLLMTextBody, askLLMTextCatch, h₁]
  · exact strIncludes_append_left "Failed to get response from SiliconFlow: "
      (thrownToString e₁) "SiliconFlow" (by decide)
  · simp [askTool, askToolBody, askToolCatch, h₂]
  · exact strIncludes_append_left "Failed to get tool response from SiliconFlow: "
      (thrownMessage e₂) "SiliconFlow" (by decide)
  · simp [askLLMTextStream, askLLMTextStreamCatch, h₃]
  · exact strIncludes_append_left "Failed to get stream response from SiliconFlow: "
      (thrownToString e₃) "SiliconFlow" (by decide)

/-- Witness for C6 at a concrete non-abort backend error. -/
theorem c6_witness :
    (isAbortInstanceCheck (Thrown.error "Error" "boom") = false ∧
     isAbortNameMessage (Thrown.error "Error" "boom") = false) ∧
    (((askLLMText ⟨[], 0⟩ "r" false (some (Thrown.error "Error" "boom"))).1 =
       .error (Thrown.error "Error"
         ("Failed to get response from SiliconFlow: " ++
           thrownToString (Thrown.error "Error" "boom"))) ∧
      strIncludes ("Failed to get response from SiliconFlow: " ++
        thrownToString (Thrown.error "Error" "boom")) "SiliconFlow" = true) ∧
     ((askTool ⟨[], 0⟩ [] ToolChoice.auto "r" false
         (some (Thrown.error "Error" "boom"))).1 =
       .error (Thrown.error "Error"
         ("Failed to get tool response from SiliconFlow: " ++
           thrownMessage (Thrown.error "Error" "boom"))) ∧
      strIncludes ("Failed to get tool response from SiliconFlow: " ++
        thrownMessage (Thrown.error "Error" "boom")) "SiliconFlow" = true) ∧
     ((askLLMTextStream ⟨[], 0⟩ "r" false (some (Thrown.error "Error" "boom"))).1 =
       { chunks := [],
         failure := some (Thrown.error "Error"
           ("Failed to get stream response from SiliconFlow: " ++
             thrownToString (Thrown.error "Error" "boom"))) } ∧
      strIncludes ("Failed to get stream response from SiliconFlow: " ++
        thrownToString (Thrown.error "Error" "boom")) "SiliconFlow" = true)) :=
  ⟨⟨by decide, by decide⟩,
   c6_nonabort_errors_rethrown_wrapped ⟨[], 0⟩ ⟨[], 0⟩ ⟨[], 0⟩ "r" []
     ToolChoice.auto false false false
     (Thrown.error "Error" "boom") (Thrown.error "Error" "boom")
     (Thrown.error "Error" "boom") (by decide) (by decide) (by decide)⟩

/-- Claim C7 counterexample: on the cancellation path (abort signal set at
the checkpoint, concrete state), `askTool` returns `\x7bcontent: ''\x7d`
whose `tool_calls` field is absent — refuting the claim that every returned
`LLMResponse` contains a `tool_calls` field holding a (possibly empty)
sequence on every return path. -/
theorem c7_counterexample_cancellation_omits_tool_calls :
    (askTool ⟨[], 0⟩ [] ToolChoice.auto "r" true Option.none).1 =
      .ok { content := "", tool_calls := Option.none } ∧
    ({ content := "", tool_calls := Option.none } : LLMResponse).tool_calls =
      Option.none := by
  exact ⟨rfl, rfl⟩

/-- Claim C7 amended: every `LLMResponse` returned by `askTool` contains a
`content` field (always the empty string in the stub); the success path
additionally carries `tool_calls` as the explicit empty sequence, but the
cancellation paths (checkpoint abort and abort-classified errors) omit the
`tool_calls` field rather than carrying an empty sequence. -/
theorem c7_amended_tool_calls_presence (st₁ st₂ st₃ : ProviderState)
    (r : String) (tools : List ToolDefinition) (tc : ToolChoice) (e : Thrown)
    (he : isAbortNameMessage e = true) :
    (askTool st₁ tools tc r false Option.none).1 =
      .ok { content := "", tool_calls := some [] } ∧
    (askTool st₂ tools tc r true Option.none).1 =
      .ok { content := "", tool_calls := Option.none } ∧
    (askTool st₃ tools tc r false (some e)).1 =
      .ok { content := "", tool_calls := Option.none } := by
  refine ⟨?_, ?_, ?_⟩ <;>
    simp [askTool, askToolBody, askToolCatch, he, isAbortNameMessage_requestAborted]

/-- Witness for the amended C7 with a concrete abort-classified error. -/
theorem c7_amended_witness :
    isAbortNameMessage (Thrown.error "AbortError" "boom") = true ∧
    ((askTool ⟨[], 0⟩ [] ToolChoice.auto "r" false Option.none).1 =
       .ok { content := "", tool_calls := some [] } ∧
     (askTool ⟨[], 0⟩ [] ToolChoice.auto "r" true Option.none).1 =
       .ok { content := "", tool_calls := Option.none } ∧
     (askTool ⟨[], 0⟩ [] ToolChoice.auto "r" false
         (some (Thrown.error "AbortError" "boom"))).1 =
       .ok { content := "", tool_calls := Option.none }) :=
  ⟨by decide,
   c7_amended_tool_calls_presence ⟨[], 0⟩ ⟨[], 0⟩ ⟨[], 0⟩ "r" [] ToolChoice.auto
     (Thrown.error "AbortError" "boom") (by decide)⟩

/-- Claim C8: `formatMessages` is the identity projection onto
`\x7brole, content\x7d` pairs — it preserves length and order, and the i-th
output record's role and content equal the i-th input message's role and
content. -/
theorem c8_formatMessages_identity_projection (ms : List Message) :
    (formatMessages ms).length = ms.length ∧
    ∀ i : Nat, (formatMessages ms)[i]? =
      (ms[i]?).map (fun msg => { role := msg.role, content := msg.content }) := by
  constructor
  · simp [formatMessages]
  · intro i
    simp [formatMessages]

/-- Claim C9: whenever `askTool` is invoked with `toolChoice = none` (for
any messages/tools input, abort-signal state, and backend outcome) and
returns a response, any list its `tool_calls` field holds is empty. -/
theorem c9_toolchoice_none_no_tool_calls (st : ProviderState) (r : String)
    (tools : List ToolDefinition) (aborted : Bool) (bt : Option Thrown)
    (res : LLMResponse) (l : List ToolCall)
    (hres : (askTool st tools ToolChoice.none r aborted bt).1 = Except.ok res)
    (hl : res.tool_calls = some l) :
    l = [] := by
  cases bt with
  | none =>
    cases aborted with
    | false =>
      simp [askTool, askToolBody] at hres
      rw [← hres] at hl
      simpa using hl.symm
    | true =>
      simp [askTool, askToolBody, askToolCatch,
        isAbortNameMessage_requestAborted] at hres
      rw [← hres] at hl
      simp at hl
  | some e =>
    cases he : isAbortNameMessage e with
    | false =>
      simp [askTool, askToolBody, askToolCatch, he] at hres
    | true =>
      simp [askTool, askToolBody, askToolCatch, he] at hres
      rw [← hres] at hl
      simp at hl

/-- Witness for C9 on the success path with `toolChoice = none`. -/
theorem c9_witness :
    ((askTool ⟨[], 0⟩ [] ToolChoice.none "r" false Option.none).1 =
       Except.ok { content := "", tool_calls := some [] } ∧
     ({ content := "", tool_calls := some [] } : LLMResponse).tool_calls =
       some []) ∧
    ([] : List ToolCall) = [] :=
  ⟨⟨rfl, rfl⟩,
   c9_toolchoice_none_no_tool_calls ⟨[], 0⟩ "r" [] false Option.none
     { content := "", tool_calls := some [] } [] rfl rfl⟩

/-- Claim C10 (implicit): abort classification looks only at the error's
surface text — for any error whose `name` is `AbortError` or whose
`message` contains the substring `aborted`, each of the three operations
returns its neutral result, regardless of whether the error came from this
request's own cancellation handle or from a genuine backend failure that
merely mentions `aborted`. -/
theorem c10_surface_text_abort_classification (st₁ st₂ st₃ : ProviderState)
    (r : String) (tools : List ToolDefinition) (tc : ToolChoice)
    (n m : String)
    (h : (n == "AbortError" || strIncludes m "aborted") = true) :
    (askLLMText st₁ r false (some (Thrown.error n m))).1 = .ok "" ∧
    (askTool st₂ tools tc r false (some (Thrown.error n m))).1 =
      .ok { content := "", tool_calls := Option.none } ∧
    (askLLMTextStream st₃ r false (some (Thrown.error n m))).1 =
      { chunks := [], failure := Option.none } := by
  have h₁ : isAbortInstanceCheck (Thrown.error n m) = true := h
  have h₂ : isAbortNameMessage (Thrown.error n m) = true := h
  refine ⟨?_, ?_, ?_⟩ <;>
    simp [askLLMText, askLLMTextBody, askLLMTextCatch,
      askTool, askToolBody, askToolCatch,
      askLLMTextStream, askLLMTextStreamCatch, h₁, h₂]

/-- Witness for C10 at a backend-style failure whose message merely
mentions `aborted` (the error's name is the generic `Error`, so it is not
an abort by provenance). -/
theorem c10_witness :
    (("Error" == "AbortError" ||
      strIncludes "Connection aborted by remote host" "aborted") = true) ∧
    ((askLLMText ⟨[], 0⟩ "r" false
        (some (Thrown.error "Error" "Connection aborted by remote host"))).1 =
       .ok "" ∧
     (askTool ⟨[], 0⟩ [] ToolChoice.auto "r" false
        (some (Thrown.error "Error" "Connection aborted by remote host"))).1 =
       .ok { content := "", tool_calls := Option.none } ∧
     (askLLMTextStream ⟨[], 0⟩ "r" false
        (some (Thrown.error "Error" "Connection aborted by remote host"))).1 =
       { chunks := [], failure := Option.none }) :=
  ⟨by decide,
   c10_surface_text_abort_classification ⟨[], 0⟩ ⟨[], 0⟩ ⟨[], 0⟩ "r" []
     ToolChoice.auto "Error" "Connection aborted by remote host" (by decide)⟩

end SiliconFlow
